import Mathlib

/-
Verification of the legacy reimbursement scoring pipeline and its calibrator.

The scoring pipeline lives in two shipped variants,
src/calculate_reimbursement.py (the "base" variant) and
src/calculate_reimbursement_optimized.py (the "optimized" variant); the
calibration sweep lives in src/train_parameters.py.

Modelling conventions:
- Python floats are embedded as exact rationals (ℚ).  All branch conditions,
  tier formulas and multiplier applications are translated literally from the
  source; only the number representation differs.
- math.log is a transcendental float operation; it is modelled as an explicit
  function parameter (logFn : ℚ → ℚ) of the pipeline.  No verified claim
  depends on the values logFn takes, only on where its result is added.
- Python exceptions (ZeroDivisionError for duration 0, ValueError from
  math.log on a nonpositive argument) are modelled by returning none from the
  pipeline; the guard lists exactly the raising inputs of the source.
- Python round is round-half-to-even (banker's rounding); pyRound models it
  exactly on rationals.
-/

/-- ModelConfig from src/calculate_reimbursement.py lines 14-38 and
src/calculate_reimbursement_optimized.py lines 17-42: the named floating point
constants read by the pipeline stages. -/
structure ModelConfig where
  base_per_diem : ℚ
  mileage_rates : List ℚ
  receipt_rates : List ℚ
  cluster_multipliers : List ℚ
  vacation_bonus_multiplier : ℚ
  vacation_base_multiplier : ℚ
  five_day_multiplier : ℚ
  receipt_threshold_multiplier : ℚ
  efficiency_threshold_multiplier : ℚ
  miles_threshold_multiplier : ℚ
  interaction_coeff : ℚ
  log_bonus_coeff : ℚ
  bug_base_bonus : ℚ
  bug_multiplier : ℚ
deriving DecidableEq

/-- The documented configuration of the base variant,
src/calculate_reimbursement.py lines 15-38. -/
def baseConfig : ModelConfig where
  base_per_diem := 45.51959
  mileage_rates := [0.78707, 0.45114, 0.20083]
  receipt_rates := [0.39998, 0.30454, 0.43686, 0.12188]
  cluster_multipliers := [1.14757, 1.11176, 1.20275, 1.19116, 1.07688, 1.21401]
  vacation_bonus_multiplier := 1.04678
  vacation_base_multiplier := 1.07235
  five_day_multiplier := 1.08250
  receipt_threshold_multiplier := 1.19667
  efficiency_threshold_multiplier := 1.01898
  miles_threshold_multiplier := 1.02133
  interaction_coeff := 0.00055520
  log_bonus_coeff := 5.12776
  bug_base_bonus := 20.69937
  bug_multiplier := 0.00617

/-- The documented configuration of the optimized variant,
src/calculate_reimbursement_optimized.py lines 18-42. -/
def optConfig : ModelConfig where
  base_per_diem := 45.5195880490612
  mileage_rates := [0.787071175593883, 0.45114227601327, 0.200831651920261]
  receipt_rates := [0.399975746217208, 0.3045420665708, 0.436856841815577, 0.121882355942393]
  cluster_multipliers := [1.14756663634639, 1.11176444876928, 1.20275399349877,
    1.19116480573546, 1.07688362098627, 1.2140054738624]
  vacation_bonus_multiplier := 1.04678047616035
  vacation_base_multiplier := 1.07234985943884
  five_day_multiplier := 1.08250167328268
  receipt_threshold_multiplier := 1.19666525936238
  efficiency_threshold_multiplier := 1.01898035206799
  miles_threshold_multiplier := 1.02133465968143
  interaction_coeff := 0.000555204802994334
  log_bonus_coeff := 5.12776389976777
  bug_base_bonus := 20.6993690179661
  bug_multiplier := 0.00616844543255866

/-- Python's modulo by 100 on reals: x % 100 = x - 100 * floor (x / 100)
(for the positive divisor 100 this is exactly Python's float mod). -/
def fmod100 (x : ℚ) : ℚ := x - 100 * (⌊x / 100⌋ : ℚ)

/-- Python's built-in round to the nearest integer, which rounds halves to the
nearest even integer (banker's rounding). -/
def pyRound (q : ℚ) : ℤ :=
  if q - ⌊q⌋ < 1/2 then ⌊q⌋
  else if 1/2 < q - ⌊q⌋ then ⌊q⌋ + 1
  else if ⌊q⌋ % 2 = 0 then ⌊q⌋ else ⌊q⌋ + 1

/-- Python's round(x, 2): banker's rounding at two decimal places. -/
def pyRound2 (q : ℚ) : ℚ := (pyRound (q * 100) : ℚ) / 100

/-- The receipt_cents and receipt_ends_49_99 feature of the base variant,
src/calculate_reimbursement.py lines 86-87: the raw modulo is compared to 49
and 99 without rounding. -/
def receipt_ends_49_99_base (r : ℚ) : Bool :=
  let receipt_cents := fmod100 (r * 100)
  decide (receipt_cents = 49) || decide (receipt_cents = 99)

/-- The receipt_cents and receipt_ends_49_99 feature of the optimized variant,
src/calculate_reimbursement_optimized.py lines 69-70: the modulo is rounded to
the nearest integer before the comparison. -/
def receipt_ends_49_99_opt (r : ℚ) : Bool :=
  let receipt_cents := pyRound (fmod100 (r * 100))
  decide (receipt_cents = 49) || decide (receipt_cents = 99)

/-- The vacation_penalty combination flag (actually a bonus),
src/calculate_reimbursement.py line 98 and
src/calculate_reimbursement_optimized.py line 81, with
receipts_per_day = r / d as on line 54 of both files. -/
def vacation_penalty (d r : ℚ) : Bool :=
  decide (8 ≤ d) && decide (120 < r / d)

/-- The fallback cluster decision table, src/calculate_reimbursement.py lines
159-170 (the is_trained flag is always false at inference) and identically
src/calculate_reimbursement_optimized.py lines 141-162, with
miles_per_day = m / d as in engineer_features. -/
def determine_cluster (d m r : ℚ) : ℕ :=
  let miles_per_day := m / d
  if d ≤ 1.5 ∧ 500 < miles_per_day then 0
  else if 8 < d ∧ miles_per_day < 50 then 1
  else if 3 ≤ d ∧ d ≤ 5 ∧ 1500 < r then 2
  else if 4 ≤ d ∧ d ≤ 7 ∧ 150 < miles_per_day ∧ r < 800 then 3
  else if 8 < d ∧ 1200 < r then 4
  else 5

/-- apply_rounding_bug, src/calculate_reimbursement.py lines 176-185 and
src/calculate_reimbursement_optimized.py lines 164-174: when the flag is set,
add bug_base_bonus + amount * bug_multiplier. -/
def apply_rounding_bug (cfg : ModelConfig) (amount : ℚ) (flag : Bool) : ℚ :=
  if flag then amount + (cfg.bug_base_bonus + amount * cfg.bug_multiplier)
  else amount

/-- The tiered mileage reimbursement, src/calculate_reimbursement.py lines
195-200 and identically src/calculate_reimbursement_optimized.py lines
184-189. -/
def mileage_reimbursement (cfg : ModelConfig) (m : ℚ) : ℚ :=
  if m ≤ 100 then m * cfg.mileage_rates.getD 0 0
  else if m ≤ 500 then
    100 * cfg.mileage_rates.getD 0 0 + (m - 100) * cfg.mileage_rates.getD 1 0
  else
    100 * cfg.mileage_rates.getD 0 0 + 400 * cfg.mileage_rates.getD 1 0 +
      (m - 500) * cfg.mileage_rates.getD 2 0

/-- The tiered receipt reimbursement of the base variant with flat dollar tier
bases 15, 180, 300, src/calculate_reimbursement.py lines 203-210. -/
def receipt_reimbursement_flat (cfg : ModelConfig) (r : ℚ) : ℚ :=
  if r ≤ 50 then r * cfg.receipt_rates.getD 0 0
  else if r ≤ 500 then 15 + (r - 50) * cfg.receipt_rates.getD 1 0
  else if r ≤ 1500 then 15 + 180 + (r - 500) * cfg.receipt_rates.getD 2 0
  else 15 + 180 + 300 + (r - 1500) * cfg.receipt_rates.getD 3 0

/-- The tiered receipt reimbursement of the optimized variant with
rate-continuation tier bases 50 * rate0, 450 * rate1, 1000 * rate2,
src/calculate_reimbursement_optimized.py lines 192-199. -/
def receipt_reimbursement_rate (cfg : ModelConfig) (r : ℚ) : ℚ :=
  if r ≤ 50 then r * cfg.receipt_rates.getD 0 0
  else if r ≤ 500 then
    50 * cfg.receipt_rates.getD 0 0 + (r - 50) * cfg.receipt_rates.getD 1 0
  else if r ≤ 1500 then
    50 * cfg.receipt_rates.getD 0 0 + 450 * cfg.receipt_rates.getD 1 0 +
      (r - 500) * cfg.receipt_rates.getD 2 0
  else
    50 * cfg.receipt_rates.getD 0 0 + 450 * cfg.receipt_rates.getD 1 0 +
      1000 * cfg.receipt_rates.getD 2 0 + (r - 1500) * cfg.receipt_rates.getD 3 0

/-- calculate_base_reimbursement of the base variant,
src/calculate_reimbursement.py lines 187-212. -/
def calculate_base_reimbursement_flat (cfg : ModelConfig) (d m r : ℚ) : ℚ :=
  cfg.base_per_diem * d + mileage_reimbursement cfg m + receipt_reimbursement_flat cfg r

/-- calculate_base_reimbursement of the optimized variant,
src/calculate_reimbursement_optimized.py lines 176-201. -/
def calculate_base_reimbursement_rate (cfg : ModelConfig) (d m r : ℚ) : ℚ :=
  cfg.base_per_diem * d + mileage_reimbursement cfg m + receipt_reimbursement_rate cfg r

/-- apply_cluster_adjustments, src/calculate_reimbursement.py lines 214-225 and
identically src/calculate_reimbursement_optimized.py lines 203-214: the special
cased path is cluster 4 (the long-trip high-spending path). -/
def apply_cluster_adjustments (cfg : ModelConfig) (base_amount : ℚ) (cluster : ℕ)
    (vac : Bool) : ℚ :=
  if cluster = 4 ∧ vac = true then base_amount * cfg.vacation_bonus_multiplier
  else if cluster = 4 then base_amount * cfg.vacation_base_multiplier
  else base_amount * cfg.cluster_multipliers.getD cluster 0

/-- apply_threshold_effects, src/calculate_reimbursement.py lines 227-253 and
identically src/calculate_reimbursement_optimized.py lines 216-246, with
is_5_day_trip the flag of line 90 and miles_per_day = m / d. -/
def apply_threshold_effects (cfg : ModelConfig) (amount d m r : ℚ) : ℚ :=
  let a1 := if d = 5 then amount * cfg.five_day_multiplier else amount
  let a2 := if 660.54 < r then a1 * cfg.receipt_threshold_multiplier else a1
  let a3 := if 187.01 < m / d then a2 * cfg.efficiency_threshold_multiplier else a2
  if 473.8 < m then a3 * cfg.miles_threshold_multiplier else a3

/-- calculate_reimbursement of the base variant,
src/calculate_reimbursement.py lines 255-292.  The guard collects exactly the
inputs on which the Python code raises inside engineer_features: division by
zero when the duration is 0 (line 54) and a math.log domain error when
duration + 1, miles + 1 or receipts + 1 is nonpositive (lines 113-115).
duration_spending_interaction is d * (r / d) as on lines 54 and 105, and
logFn stands for math.log. -/
def calculate_reimbursement_base (logFn : ℚ → ℚ) (cfg : ModelConfig)
    (d m r : ℚ) : Option ℚ :=
  if d = 0 ∨ d ≤ -1 ∨ m ≤ -1 ∨ r ≤ -1 then none
  else
    let cluster := determine_cluster d m r
    let base_amount := calculate_base_reimbursement_flat cfg d m r
    let adjusted := apply_cluster_adjustments cfg base_amount cluster (vacation_penalty d r)
    let threshold_adjusted := apply_threshold_effects cfg adjusted d m r
    let bugged := apply_rounding_bug cfg threshold_adjusted (receipt_ends_49_99_base r)
    let final_amount := bugged + (d * (r / d)) * cfg.interaction_coeff +
      logFn (r + 1) * cfg.log_bonus_coeff
    some (pyRound2 (max 50 (min final_amount 5000)))

/-- calculate_reimbursement of the optimized variant,
src/calculate_reimbursement_optimized.py lines 248-285; the structure is that
of the base variant with the rate-continuation receipt tiers and the rounded
bug trigger. -/
def calculate_reimbursement_opt (logFn : ℚ → ℚ) (cfg : ModelConfig)
    (d m r : ℚ) : Option ℚ :=
  if d = 0 ∨ d ≤ -1 ∨ m ≤ -1 ∨ r ≤ -1 then none
  else
    let cluster := determine_cluster d m r
    let base_amount := calculate_base_reimbursement_rate cfg d m r
    let adjusted := apply_cluster_adjustments cfg base_amount cluster (vacation_penalty d r)
    let threshold_adjusted := apply_threshold_effects cfg adjusted d m r
    let bugged := apply_rounding_bug cfg threshold_adjusted (receipt_ends_49_99_opt r)
    let final_amount := bugged + (d * (r / d)) * cfg.interaction_coeff +
      logFn (r + 1) * cfg.log_bonus_coeff
    some (pyRound2 (max 50 (min final_amount 5000)))

/-- The validated CLI entry point, main of src/calculate_reimbursement.py lines
294-320: inputs with duration ≤ 0 or negative miles or receipts are rejected
(line 305) before the pipeline is invoked. -/
def mainScore (logFn : ℚ → ℚ) (d : ℤ) (m r : ℚ) : Option ℚ :=
  if d ≤ 0 ∨ m < 0 ∨ r < 0 then none
  else calculate_reimbursement_base logFn baseConfig (d : ℚ) m r

/-- One record's contribution to a configuration's score in evaluate_config,
src/train_parameters.py lines 36-43: the absolute error of the prediction, or
the fixed penalty 1000.0 when the calculation fails. -/
def record_error (logFn : ℚ → ℚ) (cfg : ModelConfig)
    (rec : (ℚ × ℚ × ℚ) × ℚ) : ℚ :=
  match calculate_reimbursement_base logFn cfg rec.1.1 rec.1.2.1 rec.1.2.2 with
  | some p => |p - rec.2|
  | none => 1000

/-- evaluate_config, src/train_parameters.py lines 30-45: the mean of the
per-record errors (statistics.mean raises on an empty list, modelled as
none). -/
def evaluate_config (logFn : ℚ → ℚ) (cfg : ModelConfig)
    (data : List ((ℚ × ℚ × ℚ) × ℚ)) : Option ℚ :=
  if data.isEmpty then none
  else some ((data.map (record_error logFn cfg)).sum / (data.length : ℚ))

/-- The body of the grid sweep loop of optimize_parameters,
src/train_parameters.py lines 115-135: walk the remaining grid points carrying
the incumbent (best_config, best_error), replacing it only on a strict
improvement (line 131). -/
def optimize_sweep_go (eval : ModelConfig → ℚ) :
    ModelConfig × ℚ → List ModelConfig → ModelConfig × ℚ
  | (b, be), [] => (b, be)
  | (b, be), c :: rest =>
      if eval c < be then optimize_sweep_go eval (c, eval c) rest
      else optimize_sweep_go eval (b, be) rest

/-- The grid sweep of optimize_parameters, src/train_parameters.py lines
104-135: best_error starts at infinity, so the first evaluated grid point
always becomes the incumbent; an empty grid leaves best_config at None. -/
def optimize_sweep (eval : ModelConfig → ℚ) :
    List ModelConfig → Option (ModelConfig × ℚ)
  | [] => none
  | c :: rest => some (optimize_sweep_go eval (c, eval c) rest)

/-- Helper: pyRound never rounds below an integer lower bound. -/
lemma le_pyRound_of_le (n : ℤ) (q : ℚ) (h : (n : ℚ) ≤ q) : n ≤ pyRound q := by
  have hf : n ≤ ⌊q⌋ := Int.le_floor.mpr h
  unfold pyRound
  split_ifs <;> omega

/-- Helper: pyRound never rounds above an integer upper bound. -/
lemma pyRound_le_of_le (q : ℚ) (n : ℤ) (h : q ≤ (n : ℚ)) : pyRound q ≤ n := by
  have hf : ⌊q⌋ ≤ n := by
    have h2 : ⌊q⌋ ≤ ⌊(n : ℚ)⌋ := Int.floor_le_floor h
    simpa using h2
  unfold pyRound
  split_ifs with h1 h2 h3
  · exact hf
  · by_contra hc
    push_neg at hc
    have hn : n = ⌊q⌋ := by omega
    rw [hn] at h
    push_neg at h1
    linarith
  · exact hf
  · by_contra hc
    push_neg at hc
    have hn : n = ⌊q⌋ := by omega
    rw [hn] at h
    push_neg at h1
    linarith

/-- Helper: the clamp and round stage keeps every value inside [50, 5000]. -/
lemma clampRound_bounds (y : ℚ) :
    50 ≤ pyRound2 (max 50 (min y 5000)) ∧ pyRound2 (max 50 (min y 5000)) ≤ 5000 := by
  have h1 : (50 : ℚ) ≤ max 50 (min y 5000) := le_max_left _ _
  have h2 : max 50 (min y 5000) ≤ 5000 := max_le (by norm_num) (min_le_right _ _)
  have l1 : (5000 : ℤ) ≤ pyRound (max 50 (min y 5000) * 100) := by
    apply le_pyRound_of_le
    push_cast
    linarith
  have l2 : pyRound (max 50 (min y 5000) * 100) ≤ (500000 : ℤ) := by
    apply pyRound_le_of_le
    push_cast
    linarith
  unfold pyRound2
  constructor
  · rw [le_div_iff₀ (by norm_num : (0 : ℚ) < 100)]
    have hc : ((5000 : ℤ) : ℚ) ≤ (pyRound (max 50 (min y 5000) * 100) : ℚ) := by
      exact_mod_cast l1
    push_cast at hc
    linarith
  · rw [div_le_iff₀ (by norm_num : (0 : ℚ) < 100)]
    have hc : (pyRound (max 50 (min y 5000) * 100) : ℚ) ≤ ((500000 : ℤ) : ℚ) := by
      exact_mod_cast l2
    push_cast at hc
    linarith

/-- C1: for every valid input (integer duration above 0, nonnegative miles and
receipts) and the documented configurations, both shipped pipelines return an
amount in [50, 5000] that is an integer number of cents (two decimal
places). -/
theorem score_bounds_and_rounded (logFnB logFnO : ℚ → ℚ) (d : ℤ) (m r : ℚ)
    (hd : 0 < d) (hm : 0 ≤ m) (hr : 0 ≤ r) :
    ∃ v w : ℚ,
      calculate_reimbursement_base logFnB baseConfig (d : ℚ) m r = some v ∧
      calculate_reimbursement_opt logFnO optConfig (d : ℚ) m r = some w ∧
      50 ≤ v ∧ v ≤ 5000 ∧ (∃ k : ℤ, v = (k : ℚ) / 100) ∧
      50 ≤ w ∧ w ≤ 5000 ∧ (∃ k : ℤ, w = (k : ℚ) / 100) := by
  have hd0 : (0 : ℚ) < (d : ℚ) := by exact_mod_cast hd
  have hguard : ¬ ((d : ℚ) = 0 ∨ (d : ℚ) ≤ -1 ∨ m ≤ -1 ∨ r ≤ -1) := by
    push_neg
    exact ⟨ne_of_gt hd0, by linarith, by linarith, by linarith⟩
  unfold calculate_reimbursement_base calculate_reimbursement_opt
  rw [if_neg hguard, if_neg hguard]
  exact ⟨_, _, rfl, rfl,
    (clampRound_bounds _).1, (clampRound_bounds _).2, ⟨_, rfl⟩,
    (clampRound_bounds _).1, (clampRound_bounds _).2, ⟨_, rfl⟩⟩

/-- Witness for score_bounds_and_rounded at duration 1, miles 0, receipts 0. -/
theorem score_bounds_and_rounded_witness :
    ∃ v w : ℚ,
      calculate_reimbursement_base (fun _ => 0) baseConfig ((1 : ℤ) : ℚ) 0 0 = some v ∧
      calculate_reimbursement_opt (fun _ => 0) optConfig ((1 : ℤ) : ℚ) 0 0 = some w ∧
      50 ≤ v ∧ v ≤ 5000 ∧ (∃ k : ℤ, v = (k : ℚ) / 100) ∧
      50 ≤ w ∧ w ≤ 5000 ∧ (∃ k : ℤ, w = (k : ℚ) / 100) :=
  score_bounds_and_rounded (fun _ => 0) (fun _ => 0) 1 0 0 (by norm_num) (by norm_num)
    (by norm_num)

/-- C2 counterexample: on duration 10, miles 300, receipts 1500 the decision
table does not select path 4 — the earlier branch duration above 8 with
miles per day below 50 (300 / 10 = 30) matches first. -/
theorem determine_cluster_fixture_not_path4 : determine_cluster 10 300 1500 ≠ 4 := by
  norm_num [determine_cluster]

/-- C2 amended: on duration 10, miles 300, receipts 1500 the decision table,
evaluated top to bottom with the first match winning, selects path 1. -/
theorem determine_cluster_fixture_path1 : determine_cluster 10 300 1500 = 1 := by
  norm_num [determine_cluster]

/-- C3 counterexample: with the documented base configuration, path 3 without
the vacation flag is multiplied by the path-3 table entry 1.19116, not by the
vacation-base multiplier 1.07235 as the claim states. -/
theorem apply_cluster_adjustments_path3_not_vacation :
    apply_cluster_adjustments baseConfig 1 3 false ≠ 1 * baseConfig.vacation_base_multiplier := by
  norm_num [apply_cluster_adjustments, baseConfig]

/-- C3 amended: the path adjustment stage performs exactly one multiplication;
the path special-cased for the vacation flag is path 4 (not path 3): with the
flag it multiplies by the vacation-bonus multiplier, without it by the
vacation-base multiplier, and every other path by its entry of the 6-element
multiplier table. -/
theorem apply_cluster_adjustments_single_multiplication (cfg : ModelConfig) (amount : ℚ)
    (cluster : ℕ) (vac : Bool) :
    apply_cluster_adjustments cfg amount cluster vac =
      amount * (if cluster = 4 then
          (if vac = true then cfg.vacation_bonus_multiplier else cfg.vacation_base_multiplier)
        else cfg.cluster_multipliers.getD cluster 0) := by
  unfold apply_cluster_adjustments
  by_cases h : cluster = 4 <;> cases vac <;> simp [h]

/-- C4 counterexample: the base variant does not round the cents before the
comparison — at receipts 0.494 the rounded cents equal 49, yet the base
variant's trigger does not fire (it compares the raw modulo 49.4). -/
theorem bug_trigger_base_variant_unrounded :
    receipt_ends_49_99_base (247/500) = false ∧
      pyRound (fmod100 ((247/500) * 100)) = 49 := by
  constructor
  · norm_num [receipt_ends_49_99_base, fmod100]
  · norm_num [pyRound, fmod100]

/-- C4 amended: the optimized variant computes the cents as
round((receipts * 100) mod 100) and adds the bonus
bug_base + amount * bug_multiplier exactly when the rounded cents equal 49 or
99; receipts 49.49 fires its trigger and receipts 49.50 does not.  The base
variant instead compares the raw unrounded modulo, and the two triggers
disagree, for instance at receipts 0.494. -/
theorem bug_trigger_semantics :
    (∀ r : ℚ, receipt_ends_49_99_opt r = true ↔
      (pyRound (fmod100 (r * 100)) = 49 ∨ pyRound (fmod100 (r * 100)) = 99)) ∧
    (∀ (cfg : ModelConfig) (amount : ℚ),
      apply_rounding_bug cfg amount true =
        amount + (cfg.bug_base_bonus + amount * cfg.bug_multiplier) ∧
      apply_rounding_bug cfg amount false = amount) ∧
    receipt_ends_49_99_opt (4949/100) = true ∧
    receipt_ends_49_99_opt (99/2) = false ∧
    receipt_ends_49_99_base (247/500) ≠ receipt_ends_49_99_opt (247/500) := by
  refine ⟨?_, ?_, ?_, ?_, ?_⟩
  · intro r
    simp [receipt_ends_49_99_opt]
  · intro cfg amount
    exact ⟨rfl, rfl⟩
  · norm_num [receipt_ends_49_99_opt, pyRound, fmod100]
  · norm_num [receipt_ends_49_99_opt, pyRound, fmod100]
  · norm_num [receipt_ends_49_99_base, receipt_ends_49_99_opt, pyRound, fmod100]

/-- C5: on duration 5, miles 900, receipts 1200 the threshold stage applies
exactly the five-day, receipt-threshold and miles-threshold multipliers in that
order, and skips the efficiency multiplier because 900 / 5 = 180 does not
exceed 187.01. -/
theorem threshold_fixture_three_bumps (cfg : ModelConfig) (amount : ℚ) :
    apply_threshold_effects cfg amount 5 900 1200 =
      amount * cfg.five_day_multiplier * cfg.receipt_threshold_multiplier *
        cfg.miles_threshold_multiplier := by
  norm_num [apply_threshold_effects]

/-- C6 counterexample: called directly with the invalid input duration 5,
miles -0.5, receipts 100 (negative miles) the core scoring method does not
fail — it returns an amount. -/
theorem core_returns_amount_for_negative_miles :
    (calculate_reimbursement_base (fun _ => 0) baseConfig 5 (-1/2) 100).isSome = true := by
  norm_num [calculate_reimbursement_base]

/-- C6 amended: input validation lives in the CLI entry point, which fails on
duration ≤ 0 or negative miles or receipts before the pipeline is invoked; the
core method itself performs no validation. -/
theorem main_rejects_invalid_inputs (logFn : ℚ → ℚ) (d : ℤ) (m r : ℚ)
    (h : d ≤ 0 ∨ m < 0 ∨ r < 0) :
    mainScore logFn d m r = none := by
  unfold mainScore
  rw [if_pos h]

/-- Witness for main_rejects_invalid_inputs at duration 0. -/
theorem main_rejects_invalid_inputs_witness :
    mainScore (fun _ => 0) 0 0 0 = none :=
  main_rejects_invalid_inputs (fun _ => 0) 0 0 0 (Or.inl (by norm_num))

/-- Helper: walking the remaining grid points from an incumbent whose stored
error is its own evaluation yields an incumbent that is evaluated correctly and
no worse than the start and than every walked point. -/
lemma optimize_sweep_go_spec (eval : ModelConfig → ℚ) :
    ∀ (xs : List ModelConfig) (b : ModelConfig),
      ∃ b2 : ModelConfig, optimize_sweep_go eval (b, eval b) xs = (b2, eval b2) ∧
        eval b2 ≤ eval b ∧ ∀ c ∈ xs, eval b2 ≤ eval c := by
  intro xs
  induction xs with
  | nil =>
    intro b
    exact ⟨b, rfl, le_refl _, by simp⟩
  | cons c rest ih =>
    intro b
    by_cases h : eval c < eval b
    · obtain ⟨b2, heq, hle, hall⟩ := ih c
      have hstep : optimize_sweep_go eval (b, eval b) (c :: rest) =
          optimize_sweep_go eval (c, eval c) rest := by
        simp only [optimize_sweep_go]
        rw [if_pos h]
      refine ⟨b2, by rw [hstep, heq], le_trans hle (le_of_lt h), ?_⟩
      intro x hx
      rcases List.mem_cons.mp hx with hx | hx
      · rw [hx]; exact hle
      · exact hall x hx
    · have hge : eval b ≤ eval c := le_of_not_lt h
      obtain ⟨b2, heq, hle, hall⟩ := ih b
      have hstep : optimize_sweep_go eval (b, eval b) (c :: rest) =
          optimize_sweep_go eval (b, eval b) rest := by
        simp only [optimize_sweep_go]
        rw [if_neg h]
      refine ⟨b2, by rw [hstep, heq], hle, ?_⟩
      intro x hx
      rcases List.mem_cons.mp hx with hx | hx
      · rw [hx]; exact le_trans hle hge
      · exact hall x hx

/-- C7: after the grid sweep the retained best mean absolute error equals the
evaluation of the retained configuration and is no greater than the evaluation
of every grid point; and because the incumbent is replaced only on a strict
improvement, an incumbent never bettered by the remaining points — ties
included — is kept unchanged. -/
theorem optimize_sweep_best_is_min_and_ties_keep_first (eval : ModelConfig → ℚ) :
    (∀ (pts : List ModelConfig) (b : ModelConfig) (e : ℚ),
        optimize_sweep eval pts = some (b, e) →
        e = eval b ∧ ∀ c ∈ pts, e ≤ eval c) ∧
    (∀ (b : ModelConfig) (xs : List ModelConfig),
        (∀ c ∈ xs, eval b ≤ eval c) →
        optimize_sweep_go eval (b, eval b) xs = (b, eval b)) := by
  constructor
  · intro pts b e heq
    match pts with
    | [] => simp [optimize_sweep] at heq
    | c :: rest =>
      obtain ⟨b2, hgo, hle, hall⟩ := optimize_sweep_go_spec eval rest c
      rw [optimize_sweep, hgo] at heq
      have hb : b2 = b := congrArg Prod.fst (Option.some_injective _ heq)
      have he : eval b2 = e := congrArg Prod.snd (Option.some_injective _ heq)
      subst hb
      subst he
      refine ⟨rfl, ?_⟩
      intro x hx
      rcases List.mem_cons.mp hx with hx | hx
      · rw [hx]; exact hle
      · exact hall x hx
  · intro b xs
    induction xs with
    | nil =>
      intro _
      rfl
    | cons c rest ih =>
      intro hno
      have hbc : eval b ≤ eval c := hno c (List.mem_cons_self c rest)
      simp only [optimize_sweep_go]
      rw [if_neg (not_lt.mpr hbc)]
      exact ih fun x hx => hno x (List.mem_cons_of_mem _ hx)

/-- Witness for optimize_sweep_best_is_min_and_ties_keep_first with the
constant evaluation 1 on the two documented configurations: the sweep returns
the first configuration, and the tie with the later point keeps it. -/
theorem optimize_sweep_witness :
    ((1 : ℚ) = 1 ∧ ∀ c ∈ [baseConfig, optConfig], (1 : ℚ) ≤ 1) ∧
    optimize_sweep_go (fun _ : ModelConfig => (1 : ℚ)) (baseConfig, 1) [optConfig] =
      (baseConfig, 1) := by
  constructor
  · exact (optimize_sweep_best_is_min_and_ties_keep_first (fun _ => 1)).1
      [baseConfig, optConfig] baseConfig 1
      (by simp [optimize_sweep, optimize_sweep_go])
  · exact (optimize_sweep_best_is_min_and_ties_keep_first (fun _ => 1)).2
      baseConfig [optConfig] (fun c _ => le_refl 1)

/-- C8: when the pipeline fails on one record of the calibration dataset, that
record is scored as the fixed penalty 1000 and the evaluation of the
configuration still completes over the remaining records, returning the mean
with the penalty in place of the failed record's error. -/
theorem evaluate_config_penalty_continues (logFn : ℚ → ℚ) (cfg : ModelConfig)
    (pre post : List ((ℚ × ℚ × ℚ) × ℚ)) (d m r t : ℚ)
    (h : calculate_reimbursement_base logFn cfg d m r = none) :
    record_error logFn cfg ((d, m, r), t) = 1000 ∧
    evaluate_config logFn cfg (pre ++ ((d, m, r), t) :: post) =
      some (((pre.map (record_error logFn cfg)).sum + 1000 +
          (post.map (record_error logFn cfg)).sum) /
        ((pre.length + 1 + post.length : ℕ) : ℚ)) := by
  have hrec : record_error logFn cfg ((d, m, r), t) = 1000 := by
    simp [record_error, h]
  refine ⟨hrec, ?_⟩
  unfold evaluate_config
  rw [if_neg (by simp)]
  have hnum : ((pre ++ ((d, m, r), t) :: post).map (record_error logFn cfg)).sum =
      (pre.map (record_error logFn cfg)).sum + 1000 +
        (post.map (record_error logFn cfg)).sum := by
    rw [List.map_append, List.sum_append, List.map_cons, List.sum_cons, hrec]
    ring
  have hlen : (pre ++ ((d, m, r), t) :: post).length = pre.length + 1 + post.length := by
    simp only [List.length_append, List.length_cons]
    omega
  rw [hnum, hlen]

/-- Witness for evaluate_config_penalty_continues: a one-record dataset whose
record has duration 0 — the pipeline fails on it, the record scores 1000, and
the evaluation still returns a mean. -/
theorem evaluate_config_penalty_continues_witness :
    record_error (fun _ => 0) baseConfig ((0, 0, 0), 5) = 1000 ∧
    evaluate_config (fun _ => 0) baseConfig ([] ++ ((0, 0, 0), 5) :: []) =
      some (((([] : List ((ℚ × ℚ × ℚ) × ℚ)).map (record_error (fun _ => 0) baseConfig)).sum +
          1000 +
          (([] : List ((ℚ × ℚ × ℚ) × ℚ)).map (record_error (fun _ => 0) baseConfig)).sum) /
        ((([] : List ((ℚ × ℚ × ℚ) × ℚ)).length + 1 +
          ([] : List ((ℚ × ℚ × ℚ) × ℚ)).length : ℕ) : ℚ)) :=
  evaluate_config_penalty_continues (fun _ => 0) baseConfig [] [] 0 0 0 5
    (by simp [calculate_reimbursement_base])

/-- C9: the two shipped receipt-tier anchoring conventions are not equivalent
under the documented receipt rates — at receipts 100 the flat-dollar-base
formula of the base variant and the rate-continuation formula of the optimized
variant give different receipt reimbursements. -/
theorem receipt_tier_conventions_differ :
    ∃ r : ℚ, 50 < r ∧
      receipt_reimbursement_flat baseConfig r ≠ receipt_reimbursement_rate optConfig r := by
  refine ⟨100, by norm_num, ?_⟩
  norm_num [receipt_reimbursement_flat, receipt_reimbursement_rate, baseConfig, optConfig]

/-- C10: for an integer duration of at most 10, selecting path 4 (which
requires duration above 8 and receipts above 1200) forces the vacation flag,
because receipts / duration is then above 120; hence the vacation-base branch
of the path adjustment stage is reachable only for durations of 11 or more. -/
theorem path4_short_duration_forces_vacation_flag :
    (∀ (n : ℤ) (m r : ℚ), 0 < n → (n : ℚ) ≤ 10 →
      determine_cluster (n : ℚ) m r = 4 → vacation_penalty (n : ℚ) r = true) ∧
    (∀ (n : ℤ) (m r : ℚ), 0 < n →
      determine_cluster (n : ℚ) m r = 4 → vacation_penalty (n : ℚ) r = false → 11 ≤ n) := by
  have part1 : ∀ (n : ℤ) (m r : ℚ), 0 < n → (n : ℚ) ≤ 10 →
      determine_cluster (n : ℚ) m r = 4 → vacation_penalty (n : ℚ) r = true := by
    intro n m r hn hle hcl
    have hn0 : (0 : ℚ) < (n : ℚ) := by exact_mod_cast hn
    have hcond : 8 < (n : ℚ) ∧ 1200 < r := by
      simp only [determine_cluster] at hcl
      split_ifs at hcl with h1 h2 h3 h4 h5
      all_goals first
        | exact h5
        | exact absurd hcl (by norm_num)
    unfold vacation_penalty
    rw [Bool.and_eq_true]
    constructor
    · simp only [decide_eq_true_eq]
      linarith [hcond.1]
    · simp only [decide_eq_true_eq]
      rw [lt_div_iff₀ hn0]
      have h120 : (120 : ℚ) * (n : ℚ) ≤ 1200 := by linarith
      linarith [hcond.2]
  refine ⟨part1, ?_⟩
  intro n m r hn hcl hflag
  by_contra hc
  push_neg at hc
  have hle : (n : ℚ) ≤ 10 := by
    have : n ≤ 10 := by omega
    exact_mod_cast this
  have := part1 n m r hn hle hcl
  rw [this] at hflag
  exact Bool.noConfusion hflag

/-- Witness for path4_short_duration_forces_vacation_flag: duration 9, miles
900, receipts 1500 selects path 4 and has the vacation flag set; duration 11,
miles 900, receipts 1250 selects path 4 with the flag clear. -/
theorem path4_short_duration_forces_vacation_flag_witness :
    vacation_penalty ((9 : ℤ) : ℚ) 1500 = true ∧ (11 : ℤ) ≤ 11 :=
  ⟨path4_short_duration_forces_vacation_flag.1 9 900 1500 (by norm_num) (by norm_num)
      (by norm_num [determine_cluster]),
    path4_short_duration_forces_vacation_flag.2 11 900 1250 (by norm_num)
      (by norm_num [determine_cluster]) (by norm_num [vacation_penalty])⟩
